import Mathlib

/-!
# Verification of the sprite rotation / flip transform engine

Shallow embedding of `src/spriteRotation.ts` (MakeCode Arcade extension,
namespace `Rotation`).

Conventions of the embedding:

* JavaScript numbers are modelled as exact rationals (`ℚ`).
* A MakeCode `Image` is a palette-indexed bitmap; palette index `0` is the
  transparent sentinel.  `image.create(w, h)` allocates an all-transparent
  (all-`0`) canvas; `getPixel` out of bounds reads `0`, `setPixel` out of
  bounds is a no-op, matching the MakeCode runtime.
* `Math.round x` is `⌊x + 1/2⌋` (round half up), `Math.ceil` is `⌈·⌉`,
  JavaScript `%` is truncated remainder (sign follows the dividend).
* The host math library's trigonometry is an oracle: a `Trig` structure
  whose `cos`/`sin` fields take the angle in *degrees* and model
  `Math.cos(θ·π/180)` / `Math.sin(θ·π/180)`, and whose `atan2deg` field
  models `Math.atan2(dy, dx) * (180 / Math.PI)`.  All code that calls the
  math library is parameterised by a `Trig`; concrete evaluations use
  `hostTrig` (exact real values at multiples of 90°, valid where the
  host's double dust changes no rounding decision — see its doc comment)
  or `hostTrigDouble` (the faithful nonzero double for `cos 90°`, where
  the dust does change the auto-fit width).
* The global mutable state of the namespace (the `spriteData` table, the
  input-guard booleans) is an explicit `WState` record threaded through
  the operations; the `controller.left/right.isPressed()` polls are
  call-time boolean parameters.
-/

attribute [local semireducible] Rat.add Rat.mul Rat.inv Rat.sub

/-- Floor of a rational, written so that it evaluates by computation
(the denominator is positive, so integer division rounds down). -/
def ratFloor (q : ℚ) : ℤ := q.num / (q.den : ℤ)

/-- Ceiling of a rational, written so that it evaluates by computation. -/
def ratCeil (q : ℚ) : ℤ := -ratFloor (-q)

theorem ratFloor_eq (q : ℚ) : ratFloor q = ⌊q⌋ := Rat.floor_def.symm

theorem ratCeil_eq (q : ℚ) : ratCeil q = ⌈q⌉ := by
  rw [ratCeil, ratFloor_eq, Int.floor_neg, neg_neg]

/-- JavaScript `Math.round`: round half toward `+∞`. -/
def jsRound (q : ℚ) : ℤ := ratFloor (q + 1/2)

/-- Truncation toward zero, as JavaScript coerces for its `%` operator. -/
def jsTrunc (q : ℚ) : ℤ := if 0 ≤ q then ratFloor q else ratCeil q

/-- JavaScript remainder `a % n` on numbers: `a - n * trunc (a / n)`. -/
def jsMod (a n : ℚ) : ℚ := a - n * (jsTrunc (a / n) : ℚ)

/-- The angle normalisation used throughout the source:
`((angle % 360) + 360) % 360`. -/
def jsNormalize (angle : ℚ) : ℚ := jsMod (jsMod angle 360 + 360) 360

/-- A MakeCode image: a `width × height` grid of palette indices stored
row-major; index `0` is the transparent sentinel. -/
structure Image where
  width : ℕ
  height : ℕ
  data : List ℕ
deriving DecidableEq

namespace Image

/-- `image.create(w, h)`: an all-transparent canvas. -/
def create (w h : ℕ) : Image := ⟨w, h, List.replicate (w * h) 0⟩

/-- `img.getPixel(x, y)`: palette index at `(x, y)`, `0` out of bounds. -/
def getPixel (img : Image) (x y : ℤ) : ℕ :=
  if 0 ≤ x ∧ x < (img.width : ℤ) ∧ 0 ≤ y ∧ y < (img.height : ℤ) then
    img.data.getD (y.toNat * img.width + x.toNat) 0
  else 0

/-- `img.setPixel(x, y, c)`: functional update, no-op out of bounds. -/
def setPixel (img : Image) (x y : ℤ) (c : ℕ) : Image :=
  if 0 ≤ x ∧ x < (img.width : ℤ) ∧ 0 ≤ y ∧ y < (img.height : ℤ) then
    { img with data := img.data.set (y.toNat * img.width + x.toNat) c }
  else img

/-- `img.clone()`: images are values in the embedding, so a clone is the
image itself. -/
def clone (img : Image) : Image := img

end Image

/-- `flipImageVertically(img)`: output pixel `(x, h-1-y)` is input pixel
`(x, y)`. -/
def flipImageVertically (img : Image) : Image :=
  let w := img.width
  let h := img.height
  (List.range w).foldl (fun acc (x : ℕ) =>
    (List.range h).foldl (fun acc2 (y : ℕ) =>
      acc2.setPixel (x : ℤ) ((h : ℤ) - 1 - (y : ℤ)) (img.getPixel (x : ℤ) (y : ℤ)))
      acc)
    (Image.create w h)

/-- The body of `rotateImage` after `cos` and `sin` have been computed:
auto-fitted destination size, inverse mapping with nearest-neighbour
rounding, transparent (`0`) source pixels never written. -/
def rotateImageCore (img : Image) (c s : ℚ) : Image :=
  let w := img.width
  let h := img.height
  let nw : ℕ := (ratCeil (|(w : ℚ) * c| + |(h : ℚ) * s|)).toNat
  let nh : ℕ := (ratCeil (|(w : ℚ) * s| + |(h : ℚ) * c|)).toNat
  let cx : ℚ := (w : ℚ) / 2
  let cy : ℚ := (h : ℚ) / 2
  let ncx : ℚ := (nw : ℚ) / 2
  let ncy : ℚ := (nh : ℚ) / 2
  (List.range nw).foldl (fun acc (x : ℕ) =>
    (List.range nh).foldl (fun acc2 (y : ℕ) =>
      let dx : ℚ := (x : ℚ) - ncx
      let dy : ℚ := (y : ℚ) - ncy
      let sx : ℤ := jsRound (dx * c + dy * s + cx)
      let sy : ℤ := jsRound (-dx * s + dy * c + cy)
      if 0 ≤ sx ∧ sx < (w : ℤ) ∧ 0 ≤ sy ∧ sy < (h : ℤ) then
        let col := img.getPixel sx sy
        if col ≠ 0 then acc2.setPixel (Int.ofNat x) (Int.ofNat y) col else acc2
      else acc2)
      acc)
    (Image.create nw nh)

/-- Oracle for the host math library.  `cos θ` and `sin θ` take the angle
in degrees and stand for `Math.cos(θ·π/180)` and `Math.sin(θ·π/180)`;
`atan2deg dy dx` stands for `Math.atan2(dy, dx) * (180 / Math.PI)`. -/
structure Trig where
  cos : ℚ → ℚ
  sin : ℚ → ℚ
  atan2deg : ℚ → ℚ → ℚ

/-- `rotateImage(img, angleDegrees)`. -/
def rotateImage (t : Trig) (img : Image) (angleDegrees : ℚ) : Image :=
  rotateImageCore img (t.cos angleDegrees) (t.sin angleDegrees)

/-- The body of `rotateImageWithMargin` after `cos`/`sin` have been
computed: destination canvas is `(sw + 2·margin) × (sh + 2·margin)`
whatever the angle, same inverse mapping as `rotateImageCore`. -/
def rotateImageWithMarginCore (img : Image) (c s : ℚ) (margin : ℤ) : Image :=
  let sw := img.width
  let sh := img.height
  let dw : ℕ := ((sw : ℤ) + margin * 2).toNat
  let dh : ℕ := ((sh : ℤ) + margin * 2).toNat
  let scx : ℚ := (sw : ℚ) / 2
  let scy : ℚ := (sh : ℚ) / 2
  let dcx : ℚ := (dw : ℚ) / 2
  let dcy : ℚ := (dh : ℚ) / 2
  (List.range dw).foldl (fun acc (x : ℕ) =>
    (List.range dh).foldl (fun acc2 (y : ℕ) =>
      let dx : ℚ := (x : ℚ) - dcx
      let dy : ℚ := (y : ℚ) - dcy
      let sx : ℤ := jsRound (dx * c + dy * s + scx)
      let sy : ℤ := jsRound (-dx * s + dy * c + scy)
      if 0 ≤ sx ∧ sx < (sw : ℤ) ∧ 0 ≤ sy ∧ sy < (sh : ℤ) then
        let col := img.getPixel sx sy
        if col ≠ 0 then acc2.setPixel (Int.ofNat x) (Int.ofNat y) col else acc2
      else acc2)
      acc)
    (Image.create dw dh)

/-- `rotateImageWithMargin(img, angleDegrees, margin)`. -/
def rotateImageWithMargin (t : Trig) (img : Image) (angleDegrees : ℚ)
    (margin : ℤ) : Image :=
  rotateImageWithMarginCore img (t.cos angleDegrees) (t.sin angleDegrees) margin

/-- `rotateImageByDegrees(img, angle, margin)`: normalises the angle,
clamps the margin to `≥ 0`, `null` in gives `null` out. -/
def rotateImageByDegrees (t : Trig) (img : Option Image) (angle : ℚ)
    (margin : ℤ) : Option Image :=
  match img with
  | none => none
  | some i => some (rotateImageWithMargin t i (jsNormalize angle) (max 0 margin))

/-- `rotateImageFromToWithOffset(img, x1, y1, x2, y2, offset, margin)`:
returns a clone of the input when the two points coincide, otherwise
rotates by the bearing plus offset with clamped margin. -/
def rotateImageFromToWithOffset (t : Trig) (img : Option Image)
    (x1 y1 x2 y2 offset : ℚ) (margin : ℤ) : Option Image :=
  match img with
  | none => none
  | some i =>
    let dx := x2 - x1
    let dy := y2 - y1
    if dx = 0 ∧ dy = 0 then some i.clone
    else
      let angle := t.atan2deg dy dx + offset
      some (rotateImageWithMargin t i angle (max 0 margin))

/-- Per-sprite transform state, interface `SpriteRotationData`. -/
structure SpriteRotationData where
  originalImage : Image
  currentRotation : ℚ
  isFlippedY : Bool
  transformedImage : Option Image
deriving DecidableEq

/-- A host sprite: position and currently displayed image.  The stable
integer id is the key under which the binding layer stores the sprite, so
it lives outside this record. -/
structure Sprite where
  x : ℚ
  y : ℚ
  img : Image
deriving DecidableEq

/-- The mutable state of the `Rotation` namespace together with the host
sprites it mutates: the `spriteData` table keyed by sprite id, the two
remembered input booleans and the protection flag. -/
structure WState where
  sprites : ℕ → Option Sprite
  spriteData : ℕ → Option SpriteRotationData
  lastValidLeftState : Bool
  lastValidRightState : Bool
  inputProtectionEnabled : Bool

/-- `shouldProcessTransformation()`.  The `controller.left/right`
`isPressed()` polls are the call-time parameters `l` and `r`.  Returns the
decision together with the state (the remembered booleans are updated on
an unambiguous press). -/
def shouldProcessTransformation (st : WState) (l r : Bool) : Bool × WState :=
  if !st.inputProtectionEnabled then (true, st)
  else if l && r then (false, st)
  else if l && !r then
    (true, { st with lastValidLeftState := true, lastValidRightState := false })
  else if r && !l then
    (true, { st with lastValidLeftState := false, lastValidRightState := true })
  else (true, st)

/-- `enableInputProtection()`. -/
def enableInputProtection (st : WState) : WState :=
  { st with inputProtectionEnabled := true }

/-- The transform pipeline of `applyTransformation` (and of the on-demand
branch of `getRotatedImage`): clone the original, flip vertically if the
flag is set, then rotate if the rotation is nonzero. -/
def transformPipeline (t : Trig) (original : Image) (rot : ℚ)
    (flip : Bool) : Image :=
  let img := original.clone
  let img := if flip then flipImageVertically img else img
  if rot ≠ 0 then rotateImage t img rot else img

/-- `applyTransformation(sprite, data)`: recompute from `originalImage`,
cache the result, set it as the sprite's image and restore the position
that was read before the image swap (re-setting `(x, y)` leaves the
position of the model's sprite unchanged). -/
def applyTransformation (t : Trig) (sp : Sprite) (d : SpriteRotationData) :
    Sprite × SpriteRotationData :=
  let img := transformPipeline t d.originalImage d.currentRotation d.isFlippedY
  ({ sp with img := img, x := sp.x, y := sp.y },
   { d with transformedImage := some img })

/-- Write one entry of a `ℕ`-keyed table. -/
def updMap {α : Type} (m : ℕ → Option α) (k : ℕ) (v : α) : ℕ → Option α :=
  fun k2 => if k2 = k then some v else m k2

/-- The shared tail of `setRotation` after the state entry is known to
exist: compare the normalized angle with the stored one and recompute on
change.  Returns the new state and whether `applyTransformation` ran. -/
def setRotationCore (t : Trig) (st : WState) (spriteId : ℕ) (sp : Sprite)
    (d : SpriteRotationData) (angle : ℚ) : WState × Bool :=
  if d.currentRotation ≠ jsNormalize angle then
    ({ st with
        sprites := updMap st.sprites spriteId
          (applyTransformation t sp { d with currentRotation := jsNormalize angle }).1,
        spriteData := updMap st.spriteData spriteId
          (applyTransformation t sp { d with currentRotation := jsNormalize angle }).2 },
     true)
  else (st, false)

/-- `setRotation(sprite, angle)`.  A `none` sprite is the `null` early
return; a missing table entry is created from a clone of the sprite's
current image before the comparison.  The boolean records whether
`applyTransformation` was invoked. -/
def setRotation (t : Trig) (st : WState) (spriteId : ℕ) (angle : ℚ) :
    WState × Bool :=
  match st.sprites spriteId with
  | none => (st, false)
  | some sp =>
    match st.spriteData spriteId with
    | some d => setRotationCore t st spriteId sp d angle
    | none =>
      setRotationCore t
        { st with spriteData := updMap st.spriteData spriteId ⟨sp.img.clone, 0, false, none⟩ }
        spriteId sp ⟨sp.img.clone, 0, false, none⟩ angle

/-- The shared tail of `setVerticalFlip` after the guard allowed the call
and the entry exists. -/
def setVerticalFlipCore (t : Trig) (st : WState) (spriteId : ℕ) (sp : Sprite)
    (d : SpriteRotationData) (flipped : Bool) : WState × Bool :=
  if d.isFlippedY ≠ flipped then
    ({ st with
        sprites := updMap st.sprites spriteId
          (applyTransformation t sp { d with isFlippedY := flipped }).1,
        spriteData := updMap st.spriteData spriteId
          (applyTransformation t sp { d with isFlippedY := flipped }).2 },
     true)
  else (st, false)

/-- `setVerticalFlip(sprite, flipped)`: `null` check, then the input
guard (polling `l`, `r`), then entry creation and the compare-and-recompute
tail. -/
def setVerticalFlip (t : Trig) (st : WState) (spriteId : ℕ) (flipped : Bool)
    (l r : Bool) : WState × Bool :=
  match st.sprites spriteId with
  | none => (st, false)
  | some sp =>
    if (shouldProcessTransformation st l r).1 = false then
      ((shouldProcessTransformation st l r).2, false)
    else
      match (shouldProcessTransformation st l r).2.spriteData spriteId with
      | some d =>
        setVerticalFlipCore t (shouldProcessTransformation st l r).2 spriteId sp d flipped
      | none =>
        setVerticalFlipCore t
          { (shouldProcessTransformation st l r).2 with
            spriteData := updMap (shouldProcessTransformation st l r).2.spriteData spriteId
              ⟨sp.img.clone, 0, false, none⟩ }
          spriteId sp ⟨sp.img.clone, 0, false, none⟩ flipped

/-- `rotateTowardsWithOffset(sprite1, sprite2, offset)`: bearing from
`sprite1` to `sprite2` plus offset, fed to `setRotation`. -/
def rotateTowardsWithOffset (t : Trig) (st : WState) (id1 id2 : ℕ)
    (offset : ℚ) : WState × Bool :=
  match st.sprites id1, st.sprites id2 with
  | some s1, some s2 =>
    let dx := s2.x - s1.x
    let dy := s2.y - s1.y
    let angle := t.atan2deg dy dx + offset
    setRotation t st id1 angle
  | _, _ => (st, false)

/-- `getRotatedImage(sprite)`: clone of the cached output when present,
otherwise the pipeline recomputed on demand without mutating the cache,
defaulting to a clone of the displayed image when no state exists. -/
def getRotatedImage (st : WState) (t : Trig) (spriteId : ℕ) : Option Image :=
  match st.sprites spriteId with
  | none => none
  | some sp =>
    match st.spriteData spriteId with
    | some d =>
      match d.transformedImage with
      | some ti => some ti.clone
      | none =>
        let src := d.originalImage.clone
        let src := if d.isFlippedY then flipImageVertically src else src
        let src := if d.currentRotation ≠ 0 then rotateImage t src d.currentRotation else src
        some src
    | none => some sp.img.clone

/-- One externally triggered mutation of the binding layer, with the
input-poll results observed during the call. -/
inductive Op where
  | rot (spriteId : ℕ) (angle : ℚ)
  | flip (spriteId : ℕ) (flipped : Bool) (l r : Bool)

/-- Run a sequence of `setRotation` / `setVerticalFlip` calls. -/
def run (t : Trig) (st : WState) : List Op → WState
  | [] => st
  | Op.rot i a :: ops => run t (setRotation t st i a).1 ops
  | Op.flip i f l r :: ops => run t (setVerticalFlip t st i f l r).1 ops

/-- Concrete instance of the math-library oracle used to evaluate the
model at specific angles.  It idealises `cos`/`sin` at the multiples of
90° to the exact real values 0/±1; the host's doubles actually carry
dust of order 10⁻¹⁶ there (`Math.cos(90·π/180)` is `cos90host` below,
not 0).  On the 2×2 fixtures this file evaluates concretely, that dust
stays below every rounding threshold of the pixel loop (each `Math.round`
and `Math.ceil` argument sits more than 10⁻¹⁵ away from the relevant
half-integer or integer boundary, except the exact tie `sy = 2` where
the dusty double sum also yields exactly 2.0), so the idealised values
produce pixel-for-pixel the program's output.  Where the dust does
change a result — the auto-fit width of the 4×2 image at 90° —
`hostTrigDouble` carries the faithful double value instead.
`atan2deg 0 0 = 0` as JavaScript's `Math.atan2` returns; at angles not
listed the fields are arbitrary stand-ins (only reached through theorems
quantified over every `Trig`). -/
def hostTrig : Trig where
  cos := fun θ =>
    if θ = 0 then 1 else if θ = 90 then 0
    else if θ = 180 then -1 else if θ = 270 then 0 else 0
  sin := fun θ =>
    if θ = 0 then 0 else if θ = 90 then 1
    else if θ = 180 then 0 else if θ = 270 then -1 else 0
  atan2deg := fun _ _ => 0

/-! ## Helper lemmas -/

theorem Image.setPixel_width (img : Image) (x y : ℤ) (c : ℕ) :
    (img.setPixel x y c).width = img.width := by
  unfold Image.setPixel; split <;> rfl

theorem Image.setPixel_height (img : Image) (x y : ℤ) (c : ℕ) :
    (img.setPixel x y c).height = img.height := by
  unfold Image.setPixel; split <;> rfl

/-- A fold whose step preserves a dimension preserves that dimension. -/
theorem foldl_dim_eq {α : Type} (g : Image → ℕ) (f : Image → α → Image)
    (h : ∀ i a, g (f i a) = g i) :
    ∀ (l : List α) (i : Image), g (l.foldl f i) = g i := by
  intro l
  induction l with
  | nil => intro i; rfl
  | cons a l ih => intro i; rw [List.foldl_cons, ih, h]

theorem rotateImageCore_width (img : Image) (c s : ℚ) :
    (rotateImageCore img c s).width =
      (ratCeil (|(img.width : ℚ) * c| + |(img.height : ℚ) * s|)).toNat := by
  unfold rotateImageCore
  refine (foldl_dim_eq Image.width _ ?_ _ _).trans rfl
  intro i a
  refine foldl_dim_eq Image.width _ ?_ _ _
  intro i2 a2
  dsimp only
  split <;> [skip; rfl]
  split <;> [exact Image.setPixel_width .. ; rfl]

theorem rotateImageCore_height (img : Image) (c s : ℚ) :
    (rotateImageCore img c s).height =
      (ratCeil (|(img.width : ℚ) * s| + |(img.height : ℚ) * c|)).toNat := by
  unfold rotateImageCore
  refine (foldl_dim_eq Image.height _ ?_ _ _).trans rfl
  intro i a
  refine foldl_dim_eq Image.height _ ?_ _ _
  intro i2 a2
  dsimp only
  split <;> [skip; rfl]
  split <;> [exact Image.setPixel_height .. ; rfl]

theorem rotateImageWithMarginCore_width (img : Image) (c s : ℚ) (m : ℤ) :
    (rotateImageWithMarginCore img c s m).width = ((img.width : ℤ) + m * 2).toNat := by
  unfold rotateImageWithMarginCore
  refine (foldl_dim_eq Image.width _ ?_ _ _).trans rfl
  intro i a
  refine foldl_dim_eq Image.width _ ?_ _ _
  intro i2 a2
  dsimp only
  split <;> [skip; rfl]
  split <;> [exact Image.setPixel_width .. ; rfl]

theorem rotateImageWithMarginCore_height (img : Image) (c s : ℚ) (m : ℤ) :
    (rotateImageWithMarginCore img c s m).height = ((img.height : ℤ) + m * 2).toNat := by
  unfold rotateImageWithMarginCore
  refine (foldl_dim_eq Image.height _ ?_ _ _).trans rfl
  intro i a
  refine foldl_dim_eq Image.height _ ?_ _ _
  intro i2 a2
  dsimp only
  split <;> [skip; rfl]
  split <;> [exact Image.setPixel_height .. ; rfl]

theorem jsMod_range_of_nonneg (a : ℚ) (h : 0 ≤ a) :
    0 ≤ jsMod a 360 ∧ jsMod a 360 < 360 := by
  have h360 : (0 : ℚ) < 360 := by norm_num
  have hq : 0 ≤ a / 360 := div_nonneg h h360.le
  unfold jsMod jsTrunc
  rw [if_pos hq, ratFloor_eq]
  have h1 : ((⌊a / 360⌋ : ℤ) : ℚ) * 360 ≤ a :=
    (le_div_iff₀ h360).mp (Int.floor_le (a / 360))
  have h2 : a < (((⌊a / 360⌋ : ℤ) : ℚ) + 1) * 360 :=
    (div_lt_iff₀ h360).mp (Int.lt_floor_add_one (a / 360))
  constructor <;> nlinarith

theorem jsMod_range_of_neg (a : ℚ) (h : a < 0) :
    -360 < jsMod a 360 ∧ jsMod a 360 ≤ 0 := by
  have h360 : (0 : ℚ) < 360 := by norm_num
  have hq : ¬ (0 ≤ a / 360) := by
    push_neg
    exact div_neg_of_neg_of_pos h h360
  unfold jsMod jsTrunc
  rw [if_neg hq, ratCeil_eq]
  have h1 : a ≤ ((⌈a / 360⌉ : ℤ) : ℚ) * 360 :=
    (div_le_iff₀ h360).mp (Int.le_ceil (a / 360))
  have h2 : (((⌈a / 360⌉ : ℤ) : ℚ) - 1) * 360 < a :=
    (lt_div_iff₀ h360).mp
      (by have := Int.ceil_lt_add_one (a / 360); linarith)
  constructor <;> nlinarith

theorem jsNormalize_range (a : ℚ) : 0 ≤ jsNormalize a ∧ jsNormalize a < 360 := by
  unfold jsNormalize
  rcases le_or_lt 0 a with h | h
  · obtain ⟨h1, _⟩ := jsMod_range_of_nonneg a h
    exact jsMod_range_of_nonneg _ (by linarith)
  · obtain ⟨h1, _⟩ := jsMod_range_of_neg a h
    exact jsMod_range_of_nonneg _ (by linarith)

theorem updMap_same {α : Type} (m : ℕ → Option α) (k : ℕ) (v : α) :
    updMap m k v k = some v := by
  simp [updMap]

theorem updMap_other {α : Type} (m : ℕ → Option α) (k k2 : ℕ) (v : α)
    (h : k2 ≠ k) : updMap m k v k2 = m k2 := by
  simp [updMap, h]

/-- The cache-coherence invariant of the spec: every cached transformed
image is the pipeline applied to the entry's own current state. -/
def CacheConsistent (t : Trig) (st : WState) : Prop :=
  ∀ spriteId d img, st.spriteData spriteId = some d →
    d.transformedImage = some img →
    img = transformPipeline t d.originalImage d.currentRotation d.isFlippedY

theorem cacheConsistent_after_apply (t : Trig) (st : WState) (spriteId : ℕ)
    (sp : Sprite) (d1 : SpriteRotationData) (h : CacheConsistent t st) :
    CacheConsistent t { st with
      sprites := updMap st.sprites spriteId (applyTransformation t sp d1).1,
      spriteData := updMap st.spriteData spriteId (applyTransformation t sp d1).2 } := by
  intro id2 d2 img2 hlook htr
  have hl : updMap st.spriteData spriteId (applyTransformation t sp d1).2 id2 = some d2 :=
    hlook
  by_cases hid : id2 = spriteId
  · subst hid
    rw [updMap_same] at hl
    injection hl with hl
    subst hl
    simp only [applyTransformation] at htr ⊢
    exact (Option.some.inj htr).symm
  · rw [updMap_other _ _ _ _ hid] at hl
    exact h id2 d2 img2 hl htr

/-- A freshly created entry carries no cached image, so adding it
preserves the invariant. -/
theorem cacheConsistent_fresh_entry (t : Trig) (st : WState) (spriteId : ℕ)
    (orig : Image) (h : CacheConsistent t st) :
    CacheConsistent t { st with
      spriteData := updMap st.spriteData spriteId ⟨orig, 0, false, none⟩ } := by
  intro id2 d2 img2 hlook htr
  have hl : updMap st.spriteData spriteId ⟨orig, 0, false, none⟩ id2 = some d2 := hlook
  by_cases hid : id2 = spriteId
  · subst hid
    rw [updMap_same] at hl
    injection hl with hl
    subst hl
    simp at htr
  · rw [updMap_other _ _ _ _ hid] at hl
    exact h id2 d2 img2 hl htr

theorem cacheConsistent_setRotationCore (t : Trig) (st : WState) (spriteId : ℕ)
    (sp : Sprite) (d : SpriteRotationData) (angle : ℚ) (h : CacheConsistent t st) :
    CacheConsistent t (setRotationCore t st spriteId sp d angle).1 := by
  unfold setRotationCore
  split
  · exact cacheConsistent_after_apply t st spriteId sp _ h
  · exact h

theorem cacheConsistent_setRotation (t : Trig) (st : WState) (spriteId : ℕ)
    (angle : ℚ) (h : CacheConsistent t st) :
    CacheConsistent t (setRotation t st spriteId angle).1 := by
  unfold setRotation
  cases hsp : st.sprites spriteId with
  | none => exact h
  | some sp =>
    cases hd : st.spriteData spriteId with
    | some d => exact cacheConsistent_setRotationCore t st spriteId sp d angle h
    | none =>
      exact cacheConsistent_setRotationCore t _ spriteId sp _ angle
        (cacheConsistent_fresh_entry t st spriteId sp.img.clone h)

theorem cacheConsistent_setVerticalFlipCore (t : Trig) (st : WState)
    (spriteId : ℕ) (sp : Sprite) (d : SpriteRotationData) (flipped : Bool)
    (h : CacheConsistent t st) :
    CacheConsistent t (setVerticalFlipCore t st spriteId sp d flipped).1 := by
  unfold setVerticalFlipCore
  split
  · exact cacheConsistent_after_apply t st spriteId sp _ h
  · exact h

/-- The input guard only touches the remembered booleans, never the
`spriteData` table. -/
theorem shouldProcessTransformation_spriteData (st : WState) (l r : Bool) :
    (shouldProcessTransformation st l r).2.spriteData = st.spriteData := by
  unfold shouldProcessTransformation
  split
  · rfl
  · split
    · rfl
    · split
      · rfl
      · split <;> rfl

theorem cacheConsistent_of_spriteData_eq (t : Trig) (st st2 : WState)
    (heq : st2.spriteData = st.spriteData) (h : CacheConsistent t st) :
    CacheConsistent t st2 := by
  intro id2 d2 img2 hlook htr
  rw [heq] at hlook
  exact h id2 d2 img2 hlook htr

theorem cacheConsistent_setVerticalFlip (t : Trig) (st : WState) (spriteId : ℕ)
    (flipped l r : Bool) (h : CacheConsistent t st) :
    CacheConsistent t (setVerticalFlip t st spriteId flipped l r).1 := by
  have hs : CacheConsistent t (shouldProcessTransformation st l r).2 :=
    cacheConsistent_of_spriteData_eq t st _
      (shouldProcessTransformation_spriteData st l r) h
  unfold setVerticalFlip
  split
  · exact h
  · split
    · exact hs
    · split
      · exact cacheConsistent_setVerticalFlipCore t _ _ _ _ _ hs
      · exact cacheConsistent_setVerticalFlipCore t _ _ _ _ _
          (cacheConsistent_fresh_entry t _ _ _ hs)

theorem cacheConsistent_run (t : Trig) (ops : List Op) :
    ∀ (st : WState), CacheConsistent t st → CacheConsistent t (run t st ops) := by
  induction ops with
  | nil => intro st h; exact h
  | cons op ops ih =>
    intro st h
    cases op with
    | rot i a => exact ih _ (cacheConsistent_setRotation t st i a h)
    | flip i f l r => exact ih _ (cacheConsistent_setVerticalFlip t st i f l r h)


/-- Unfolding `setRotation` when the entry already exists. -/
theorem setRotation_spec_some (t : Trig) (st : WState) (spriteId : ℕ)
    (sp : Sprite) (d : SpriteRotationData) (angle : ℚ)
    (hsp : st.sprites spriteId = some sp) (hd : st.spriteData spriteId = some d) :
    setRotation t st spriteId angle = setRotationCore t st spriteId sp d angle := by
  unfold setRotation; rw [hsp, hd]

/-- Unfolding `setRotation` when the entry is created first. -/
theorem setRotation_spec_none (t : Trig) (st : WState) (spriteId : ℕ)
    (sp : Sprite) (angle : ℚ)
    (hsp : st.sprites spriteId = some sp) (hd : st.spriteData spriteId = none) :
    setRotation t st spriteId angle =
      setRotationCore t
        { st with spriteData := updMap st.spriteData spriteId ⟨sp.img.clone, 0, false, none⟩ }
        spriteId sp ⟨sp.img.clone, 0, false, none⟩ angle := by
  unfold setRotation; rw [hsp, hd]

theorem setRotationCore_of_ne (t : Trig) (st : WState) (spriteId : ℕ)
    (sp : Sprite) (d : SpriteRotationData) (angle : ℚ)
    (h : d.currentRotation ≠ jsNormalize angle) :
    setRotationCore t st spriteId sp d angle =
      ({ st with
          sprites := updMap st.sprites spriteId
            (applyTransformation t sp { d with currentRotation := jsNormalize angle }).1,
          spriteData := updMap st.spriteData spriteId
            (applyTransformation t sp { d with currentRotation := jsNormalize angle }).2 },
       true) := by
  unfold setRotationCore; rw [if_pos h]

theorem setRotationCore_of_eq (t : Trig) (st : WState) (spriteId : ℕ)
    (sp : Sprite) (d : SpriteRotationData) (angle : ℚ)
    (h : d.currentRotation = jsNormalize angle) :
    setRotationCore t st spriteId sp d angle = (st, false) := by
  unfold setRotationCore; rw [if_neg (by simpa using h)]

theorem setVerticalFlipCore_of_ne (t : Trig) (st : WState) (spriteId : ℕ)
    (sp : Sprite) (d : SpriteRotationData) (flipped : Bool)
    (h : d.isFlippedY ≠ flipped) :
    setVerticalFlipCore t st spriteId sp d flipped =
      ({ st with
          sprites := updMap st.sprites spriteId
            (applyTransformation t sp { d with isFlippedY := flipped }).1,
          spriteData := updMap st.spriteData spriteId
            (applyTransformation t sp { d with isFlippedY := flipped }).2 },
       true) := by
  unfold setVerticalFlipCore; rw [if_pos h]

theorem setVerticalFlipCore_of_eq (t : Trig) (st : WState) (spriteId : ℕ)
    (sp : Sprite) (d : SpriteRotationData) (flipped : Bool)
    (h : d.isFlippedY = flipped) :
    setVerticalFlipCore t st spriteId sp d flipped = (st, false) := by
  unfold setVerticalFlipCore; rw [if_neg (by simpa using h)]

/-- When the guard is enabled and both opposing inputs are pressed, it
vetoes and leaves the state untouched. -/
theorem shouldProcessTransformation_both_pressed (st : WState)
    (h : st.inputProtectionEnabled = true) :
    shouldProcessTransformation st true true = (false, st) := by
  unfold shouldProcessTransformation; rw [h]; rfl

/-- A vetoed `setVerticalFlip` returns the guard's state and does not
recompute. -/
theorem setVerticalFlip_of_veto (t : Trig) (st st2 : WState) (spriteId : ℕ)
    (sp : Sprite) (flipped l r : Bool)
    (hsp : st.sprites spriteId = some sp)
    (hg : shouldProcessTransformation st l r = (false, st2)) :
    setVerticalFlip t st spriteId flipped l r = (st2, false) := by
  unfold setVerticalFlip; rw [hsp, hg]; rfl


/-- The state after the lazy creation of a fresh table entry for a
sprite (`spriteData[spriteId] = { originalImage: clone, 0, false }`). -/
def withFreshEntry (st : WState) (spriteId : ℕ) (sp : Sprite) : WState :=
  { st with spriteData := updMap st.spriteData spriteId ⟨sp.img.clone, 0, false, none⟩ }

/-- The state after a recompute wrote back the sprite and its data. -/
def afterApply (st : WState) (spriteId : ℕ) (p : Sprite × SpriteRotationData) : WState :=
  { st with sprites := updMap st.sprites spriteId p.1,
            spriteData := updMap st.spriteData spriteId p.2 }

theorem setRotation_fst_of_eq (t : Trig) (st : WState) (spriteId : ℕ)
    (sp : Sprite) (d : SpriteRotationData) (angle : ℚ)
    (hsp : st.sprites spriteId = some sp) (hd : st.spriteData spriteId = some d)
    (h : d.currentRotation = jsNormalize angle) :
    (setRotation t st spriteId angle).1 = st := by
  rw [setRotation_spec_some t st spriteId sp d angle hsp hd,
      setRotationCore_of_eq t st spriteId sp d angle h]

theorem setRotation_fst_of_ne (t : Trig) (st : WState) (spriteId : ℕ)
    (sp : Sprite) (d : SpriteRotationData) (angle : ℚ)
    (hsp : st.sprites spriteId = some sp) (hd : st.spriteData spriteId = some d)
    (h : d.currentRotation ≠ jsNormalize angle) :
    (setRotation t st spriteId angle).1 =
      afterApply st spriteId
        (applyTransformation t sp { d with currentRotation := jsNormalize angle }) := by
  rw [setRotation_spec_some t st spriteId sp d angle hsp hd,
      setRotationCore_of_ne t st spriteId sp d angle h]
  rfl

theorem setRotation_fst_fresh_eq (t : Trig) (st : WState) (spriteId : ℕ)
    (sp : Sprite) (angle : ℚ)
    (hsp : st.sprites spriteId = some sp) (hd : st.spriteData spriteId = none)
    (h : (0 : ℚ) = jsNormalize angle) :
    (setRotation t st spriteId angle).1 = withFreshEntry st spriteId sp := by
  rw [setRotation_spec_none t st spriteId sp angle hsp hd,
      setRotationCore_of_eq _ _ _ _ _ _ h]
  rfl

theorem setRotation_fst_fresh_ne (t : Trig) (st : WState) (spriteId : ℕ)
    (sp : Sprite) (angle : ℚ)
    (hsp : st.sprites spriteId = some sp) (hd : st.spriteData spriteId = none)
    (h : (0 : ℚ) ≠ jsNormalize angle) :
    (setRotation t st spriteId angle).1 =
      afterApply (withFreshEntry st spriteId sp) spriteId
        (applyTransformation t sp ⟨sp.img.clone, jsNormalize angle, false, none⟩) := by
  rw [setRotation_spec_none t st spriteId sp angle hsp hd,
      setRotationCore_of_ne _ _ _ _ _ _ h]
  rfl

/-- With the flip flag off and a nonzero rotation, the pipeline is the
rotation of the original alone. -/
theorem transformPipeline_rot_only (t : Trig) (orig : Image) (rot : ℚ)
    (h : rot ≠ 0) : transformPipeline t orig rot false = rotateImage t orig rot := by
  unfold transformPipeline Image.clone
  simp [h]

/-! ## Concrete fixtures for witnesses and counterexamples -/

/-- A 2×2 test image with four distinct opaque pixels. -/
def imgA : Image := ⟨2, 2, [1, 2, 3, 4]⟩

/-- A 4×2 fully opaque test image. -/
def imgB : Image := ⟨4, 2, [1, 1, 1, 1, 1, 1, 1, 1]⟩

/-- A sprite at the origin displaying `imgA`. -/
def spA : Sprite := ⟨0, 0, imgA⟩

/-- A world with the single sprite `spA` under id 1 and no transform state. -/
def stA : WState :=
  ⟨fun k => if k = 1 then some spA else none, fun _ => none, false, false, false⟩

/-- Like `stA` but with input protection enabled. -/
def stGuard : WState :=
  ⟨fun k => if k = 1 then some spA else none, fun _ => none, false, false, true⟩

/-- Two sprites at the same position (ids 1 and 2). -/
def stPair : WState :=
  ⟨fun k => if k = 1 then some ⟨5, 7, imgA⟩
    else if k = 2 then some ⟨5, 7, Image.create 1 1⟩ else none,
   fun _ => none, false, false, false⟩

/-- A world whose sprite 1 already has transform state (rotation 90°,
flipped, nothing cached yet). -/
def stCached : WState :=
  ⟨fun k => if k = 1 then some spA else none,
   fun k => if k = 1 then some ⟨imgA, 90, true, none⟩ else none,
   false, false, false⟩

/-- The exact value of the IEEE-754 double the host returns for
`Math.cos(90 * Math.PI / 180)`: `90·π/180` rounds to exactly the double
nearest `π/2`, whose cosine evaluates to the double
`6.123233995736766e-17 = 4967757600021511 / 2¹⁰⁶`.  The program never
sees an exact zero at 90°. -/
def cos90host : ℚ := 4967757600021511 / 2 ^ 106

/-- Math-library oracle carrying the faithful double values of the 90°
call: `cos` is the nonzero dust `cos90host` and `sin` is exactly 1
(`Math.sin` at that argument does round to 1.0). -/
def hostTrigDouble : Trig where
  cos := fun θ => if θ = 90 then cos90host else 0
  sin := fun θ => if θ = 90 then 1 else 0
  atan2deg := fun _ _ => 0

/-! ## Claim theorems -/

set_option maxRecDepth 100000 in
/-- **C4 (counterexample)** — the claimed 2×4 output for the 4×2 image
rotated by 90° fails on the program: the host's `Math.cos(90·π/180)` is
the nonzero double `cos90host`, so the width formula ceils
`|4·cos90host| + 2 = 2 + 2.45·10⁻¹⁶` to 3, and the output is 3 wide.
(The program's height is 4: in the height sum the dust is absorbed when
the double addition `4 + 1.22·10⁻¹⁶` rounds back to `4.0` — a
floating-point rounding step this exact-arithmetic model does not
perform, which is why the height instance is stated nowhere through the
oracle.) -/
theorem rotateImage_4x2_at_90_width_not_two :
    (rotateImage hostTrigDouble imgB 90).width ≠ 2 := by decide

set_option maxRecDepth 100000 in
/-- **C4 (amended)** — for every source image and angle, the auto-fitted
rotation produces an output of width `ceil(|w·cosθ| + |h·sinθ|)` and
height `ceil(|w·sinθ| + |h·cosθ|)` over the values the host math library
returns for `cos θ`/`sin θ`; in particular, with the host's actual
double `cos(90·π/180) = cos90host ≠ 0`, the 4×2 image rotated by 90° has
width 3, not the 2 asserted by the original sentence. -/
theorem rotateImage_dimension_formula :
    (∀ (t : Trig) (img : Image) (θ : ℚ),
      ((rotateImage t img θ).width : ℤ) =
        ⌈|(img.width : ℚ) * t.cos θ| + |(img.height : ℚ) * t.sin θ|⌉ ∧
      ((rotateImage t img θ).height : ℤ) =
        ⌈|(img.width : ℚ) * t.sin θ| + |(img.height : ℚ) * t.cos θ|⌉) ∧
    (rotateImage hostTrigDouble imgB 90).width = 3 := by
  refine ⟨fun t img θ => ⟨?_, ?_⟩, by decide⟩
  · unfold rotateImage
    rw [rotateImageCore_width, ratCeil_eq]
    exact Int.toNat_of_nonneg (Int.ceil_nonneg (by positivity))
  · unfold rotateImage
    rw [rotateImageCore_height, ratCeil_eq]
    exact Int.toNat_of_nonneg (Int.ceil_nonneg (by positivity))

/-- **C5** — The margin variant always returns a `(w+2m) × (h+2m)` canvas
for nonnegative margin `m`, whatever the angle. -/
theorem rotateImageWithMargin_canvas_size (t : Trig) (img : Image) (θ : ℚ)
    (m : ℤ) (hm : 0 ≤ m) :
    ((rotateImageWithMargin t img θ m).width : ℤ) = img.width + 2 * m ∧
    ((rotateImageWithMargin t img θ m).height : ℤ) = img.height + 2 * m := by
  have hw : (0 : ℤ) ≤ (img.width : ℤ) + m * 2 :=
    add_nonneg (Int.natCast_nonneg _) (by linarith)
  have hh : (0 : ℤ) ≤ (img.height : ℤ) + m * 2 :=
    add_nonneg (Int.natCast_nonneg _) (by linarith)
  unfold rotateImageWithMargin
  constructor
  · rw [rotateImageWithMarginCore_width, Int.toNat_of_nonneg hw]; ring
  · rw [rotateImageWithMarginCore_height, Int.toNat_of_nonneg hh]; ring

/-- Witness for **C5**: a 6×6 image with margin 3 yields a 12×12 canvas. -/
theorem rotateImageWithMargin_canvas_size_witness :
    (0 : ℤ) ≤ 3 ∧
    ((rotateImageWithMargin hostTrig (Image.create 6 6) 37 3).width : ℤ) = 6 + 2 * 3 ∧
    ((rotateImageWithMargin hostTrig (Image.create 6 6) 37 3).height : ℤ) = 6 + 2 * 3 :=
  ⟨by decide,
   (rotateImageWithMargin_canvas_size hostTrig (Image.create 6 6) 37 3 (by decide)).1,
   (rotateImageWithMargin_canvas_size hostTrig (Image.create 6 6) 37 3 (by decide)).2⟩

/-- **C6** — After `setRotation(sprite, angle)` on a live sprite, the
stored rotation equals `((angle % 360) + 360) % 360` and lies in
`[0, 360)`. -/
theorem setRotation_normalizes_angle (t : Trig) (st : WState) (spriteId : ℕ)
    (sp : Sprite) (angle : ℚ) (hsp : st.sprites spriteId = some sp) :
    ∃ d, (setRotation t st spriteId angle).1.spriteData spriteId = some d ∧
      d.currentRotation = jsNormalize angle ∧
      0 ≤ d.currentRotation ∧ d.currentRotation < 360 := by
  obtain ⟨hlo, hhi⟩ := jsNormalize_range angle
  cases hd : st.spriteData spriteId with
  | some d =>
    rw [setRotation_spec_some t st spriteId sp d angle hsp hd]
    by_cases hne : d.currentRotation = jsNormalize angle
    · rw [setRotationCore_of_eq t st spriteId sp d angle hne]
      exact ⟨d, hd, hne, by rw [hne]; exact hlo, by rw [hne]; exact hhi⟩
    · rw [setRotationCore_of_ne t st spriteId sp d angle hne]
      exact ⟨_, updMap_same _ _ _, rfl, hlo, hhi⟩
  | none =>
    rw [setRotation_spec_none t st spriteId sp angle hsp hd]
    by_cases hne : (⟨sp.img.clone, 0, false, none⟩ : SpriteRotationData).currentRotation
        = jsNormalize angle
    · rw [setRotationCore_of_eq _ _ _ _ _ _ hne]
      exact ⟨_, updMap_same _ _ _, hne, le_refl 0, by norm_num⟩
    · rw [setRotationCore_of_ne _ _ _ _ _ _ hne]
      exact ⟨_, updMap_same _ _ _, rfl, hlo, hhi⟩

/-- Witness for **C6** at angle −30 on the concrete world `stA`. -/
theorem setRotation_normalizes_angle_witness :
    ∃ d, (setRotation hostTrig stA 1 (-30)).1.spriteData 1 = some d ∧
      d.currentRotation = jsNormalize (-30) ∧
      0 ≤ d.currentRotation ∧ d.currentRotation < 360 :=
  setRotation_normalizes_angle hostTrig stA 1 spA (-30) rfl

/-- The transform order asserted by the spec for C1 — rotation applied
first, then the vertical flip — stated as its own pipeline so the claim
can be compared with the code's order. -/
def rotationThenFlip (t : Trig) (original : Image) (rot : ℚ) (flip : Bool) : Image :=
  let img := if rot ≠ 0 then rotateImage t original.clone rot else original.clone
  if flip then flipImageVertically img else img

/-- **C1 (counterexample)** — at rotation 90° with the flip set, the image
cached by `applyTransformation` differs from rotating the original first
and flipping afterwards: the code flips first and rotates second. -/
theorem applyTransformation_not_rotation_then_flip :
    (applyTransformation hostTrig spA ⟨imgA, 90, true, none⟩).2.transformedImage ≠
      some (rotationThenFlip hostTrig imgA 90 true) := by decide

/-- **C1 (amended)** — every recomputation starts from the stored
original bitmap (the previously cached output is ignored entirely) and
applies the vertical flip first, then the rotation. -/
theorem applyTransformation_flip_then_rotation (t : Trig) (sp : Sprite)
    (d : SpriteRotationData) :
    ((applyTransformation t sp d).2.transformedImage =
      some (if d.currentRotation ≠ 0 then
              rotateImage t
                (if d.isFlippedY then flipImageVertically d.originalImage
                 else d.originalImage) d.currentRotation
            else
              (if d.isFlippedY then flipImageVertically d.originalImage
               else d.originalImage))) ∧
    ∀ prev, applyTransformation t sp { d with transformedImage := prev } =
      applyTransformation t sp d :=
  ⟨rfl, fun _ => rfl⟩

/-- **C2** — after any sequence of `setRotation` / `setVerticalFlip`
calls starting from a world with an empty transform-state table, every
present cached output equals the pipeline of the entry's own original
image and current state: the cache is never stale. -/
theorem cachedOutput_never_stale (t : Trig) (sprites0 : ℕ → Option Sprite)
    (l0 r0 p0 : Bool) (ops : List Op) (spriteId : ℕ)
    (d : SpriteRotationData) (img : Image)
    (hd : (run t ⟨sprites0, fun _ => none, l0, r0, p0⟩ ops).spriteData spriteId = some d)
    (him : d.transformedImage = some img) :
    img = transformPipeline t d.originalImage d.currentRotation d.isFlippedY :=
  cacheConsistent_run t ops _ (fun _ _ _ h _ => by simp at h) spriteId d img hd him

/-- Witness for **C2**: flip then rotate 90° on the 2×2 fixture. -/
theorem cachedOutput_never_stale_witness :
    (⟨2, 2, [0, 1, 0, 2]⟩ : Image) = transformPipeline hostTrig imgA 90 true :=
  cachedOutput_never_stale hostTrig stA.sprites false false false
    [Op.flip 1 true false false, Op.rot 1 90] 1
    ⟨imgA, 90, true, some ⟨2, 2, [0, 1, 0, 2]⟩⟩ ⟨2, 2, [0, 1, 0, 2]⟩
    (by decide) rfl

/-- **C3** — rotations do not compound: on a freshly tracked sprite,
`setRotation(e, a)` then `setRotation(e, b)` (normalised `b` nonzero)
caches and displays the original image rotated directly by the
normalised `b`, independent of `a`. -/
theorem setRotation_non_compounding (t : Trig) (st : WState) (spriteId : ℕ)
    (sp : Sprite) (a b : ℚ)
    (hsp : st.sprites spriteId = some sp)
    (hd : st.spriteData spriteId = none)
    (hb : jsNormalize b ≠ 0) :
    ∃ d2 sp2,
      (setRotation t (setRotation t st spriteId a).1 spriteId b).1.spriteData spriteId
          = some d2 ∧
      (setRotation t (setRotation t st spriteId a).1 spriteId b).1.sprites spriteId
          = some sp2 ∧
      d2.transformedImage = some (rotateImage t sp.img (jsNormalize b)) ∧
      sp2.img = rotateImage t sp.img (jsNormalize b) := by
  by_cases ha : (0 : ℚ) = jsNormalize a
  · rw [setRotation_fst_fresh_eq t st spriteId sp a hsp hd ha]
    rw [setRotation_spec_some t (withFreshEntry st spriteId sp) spriteId sp
          ⟨sp.img.clone, 0, false, none⟩ b hsp (updMap_same _ _ _)]
    rw [setRotationCore_of_ne _ _ _ _ _ _ (fun h => hb h.symm)]
    refine ⟨_, _, updMap_same _ _ _, updMap_same _ _ _, ?_, ?_⟩
    · exact congrArg some (transformPipeline_rot_only t sp.img _ hb)
    · exact transformPipeline_rot_only t sp.img _ hb
  · rw [setRotation_fst_fresh_ne t st spriteId sp a hsp hd ha]
    have ha0 : jsNormalize a ≠ 0 := fun h => ha h.symm
    by_cases hab : jsNormalize a = jsNormalize b
    · rw [setRotation_spec_some t
            (afterApply (withFreshEntry st spriteId sp) spriteId
              (applyTransformation t sp ⟨sp.img.clone, jsNormalize a, false, none⟩))
            spriteId
            (applyTransformation t sp ⟨sp.img.clone, jsNormalize a, false, none⟩).1
            (applyTransformation t sp ⟨sp.img.clone, jsNormalize a, false, none⟩).2
            b (updMap_same _ _ _) (updMap_same _ _ _)]
      rw [setRotationCore_of_eq _ _ _ _ _ _ hab]
      refine ⟨_, _, updMap_same _ _ _, updMap_same _ _ _, ?_, ?_⟩
      · show some (transformPipeline t sp.img (jsNormalize a) false) = _
        rw [transformPipeline_rot_only t sp.img _ ha0, hab]
      · show transformPipeline t sp.img (jsNormalize a) false = _
        rw [transformPipeline_rot_only t sp.img _ ha0, hab]
    · rw [setRotation_spec_some t
            (afterApply (withFreshEntry st spriteId sp) spriteId
              (applyTransformation t sp ⟨sp.img.clone, jsNormalize a, false, none⟩))
            spriteId
            (applyTransformation t sp ⟨sp.img.clone, jsNormalize a, false, none⟩).1
            (applyTransformation t sp ⟨sp.img.clone, jsNormalize a, false, none⟩).2
            b (updMap_same _ _ _) (updMap_same _ _ _)]
      rw [setRotationCore_of_ne _ _ _ _ _ _ hab]
      refine ⟨_, _, updMap_same _ _ _, updMap_same _ _ _, ?_, ?_⟩
      · exact congrArg some (transformPipeline_rot_only t sp.img _ hb)
      · exact transformPipeline_rot_only t sp.img _ hb

/-- Witness for **C3**: 90° then 45° on the fresh fixture world. -/
theorem setRotation_non_compounding_witness :
    ∃ d2 sp2,
      (setRotation hostTrig (setRotation hostTrig stA 1 90).1 1 45).1.spriteData 1
          = some d2 ∧
      (setRotation hostTrig (setRotation hostTrig stA 1 90).1 1 45).1.sprites 1
          = some sp2 ∧
      d2.transformedImage = some (rotateImage hostTrig spA.img (jsNormalize 45)) ∧
      sp2.img = rotateImage hostTrig spA.img (jsNormalize 45) :=
  setRotation_non_compounding hostTrig stA 1 spA 90 45 rfl rfl (by decide)

/-- **C7** — repeating `setRotation` with the same angle is a no-op the
second time: the state (table, sprites, guard memory) is returned
unchanged and `applyTransformation` does not run. -/
theorem setRotation_second_call_noop (t : Trig) (st : WState) (spriteId : ℕ)
    (angle : ℚ) :
    setRotation t (setRotation t st spriteId angle).1 spriteId angle =
      ((setRotation t st spriteId angle).1, false) := by
  cases hsp : st.sprites spriteId with
  | none =>
    have h1 : setRotation t st spriteId angle = (st, false) := by
      unfold setRotation; rw [hsp]
    rw [h1]
    show setRotation t st spriteId angle = (st, false)
    exact h1
  | some sp =>
    cases hd : st.spriteData spriteId with
    | some d =>
      by_cases hne : d.currentRotation = jsNormalize angle
      · rw [setRotation_fst_of_eq t st spriteId sp d angle hsp hd hne]
        rw [setRotation_spec_some t st spriteId sp d angle hsp hd]
        exact setRotationCore_of_eq t st spriteId sp d angle hne
      · rw [setRotation_fst_of_ne t st spriteId sp d angle hsp hd hne]
        rw [setRotation_spec_some t
              (afterApply st spriteId
                (applyTransformation t sp { d with currentRotation := jsNormalize angle }))
              spriteId
              (applyTransformation t sp { d with currentRotation := jsNormalize angle }).1
              (applyTransformation t sp { d with currentRotation := jsNormalize angle }).2
              angle (updMap_same _ _ _) (updMap_same _ _ _)]
        exact setRotationCore_of_eq _ _ _ _ _ _ rfl
    | none =>
      by_cases hne : (0 : ℚ) = jsNormalize angle
      · rw [setRotation_fst_fresh_eq t st spriteId sp angle hsp hd hne]
        rw [setRotation_spec_some t (withFreshEntry st spriteId sp) spriteId sp
              ⟨sp.img.clone, 0, false, none⟩ angle hsp (updMap_same _ _ _)]
        exact setRotationCore_of_eq _ _ _ _ _ _ hne
      · rw [setRotation_fst_fresh_ne t st spriteId sp angle hsp hd hne]
        rw [setRotation_spec_some t
              (afterApply (withFreshEntry st spriteId sp) spriteId
                (applyTransformation t sp ⟨sp.img.clone, jsNormalize angle, false, none⟩))
              spriteId
              (applyTransformation t sp ⟨sp.img.clone, jsNormalize angle, false, none⟩).1
              (applyTransformation t sp ⟨sp.img.clone, jsNormalize angle, false, none⟩).2
              angle (updMap_same _ _ _) (updMap_same _ _ _)]
        exact setRotationCore_of_eq _ _ _ _ _ _ rfl

/-- **C8** — with input protection enabled and both opposing inputs
pressed, `setVerticalFlip` is a complete no-op: the whole state is
returned unchanged and no recomputation happens. -/
theorem setVerticalFlip_guard_veto (t : Trig) (st : WState) (spriteId : ℕ)
    (flipped : Bool) (h : st.inputProtectionEnabled = true) :
    setVerticalFlip t st spriteId flipped true true = (st, false) := by
  cases hsp : st.sprites spriteId with
  | none => unfold setVerticalFlip; rw [hsp]
  | some sp =>
    exact setVerticalFlip_of_veto t st st spriteId sp flipped true true hsp
      (shouldProcessTransformation_both_pressed st h)

/-- Witness for **C8** on the protected fixture world. -/
theorem setVerticalFlip_guard_veto_witness :
    stGuard.inputProtectionEnabled = true ∧
    setVerticalFlip hostTrig stGuard 1 true true true = (stGuard, false) :=
  ⟨rfl, setVerticalFlip_guard_veto hostTrig stGuard 1 true rfl⟩

/-- **C9 (counterexample)** — with source and target sprites at the same
position, `rotateTowardsWithOffset` does not leave the source sprite's
image as the unrotated original: JavaScript's `atan2(0,0)` is `0`, so the
offset (90° here) is applied as a rotation and the displayed image
changes. -/
theorem rotateTowards_same_position_rotates :
    ((rotateTowardsWithOffset hostTrig stPair 1 2 90).1.sprites 1) ≠
      some ⟨5, 7, imgA⟩ := by decide

/-- **C9 (amended)** — the standalone image operation
`rotateImageFromToWithOffset` does return a copy of the unrotated input
whenever the target point equals the source point. -/
theorem rotateImageFromTo_same_point_clone (t : Trig) (img : Image)
    (x y offset : ℚ) (margin : ℤ) :
    rotateImageFromToWithOffset t (some img) x y x y offset margin = some img := by
  unfold rotateImageFromToWithOffset Image.clone
  simp

/-- **C10** — with transform state present and no cached output, the
image `getRotatedImage` computes on demand is exactly the image
`applyTransformation` would compute and cache for the same state: the two
paths agree. -/
theorem getRotatedImage_matches_applyTransformation (t : Trig) (st : WState)
    (spriteId : ℕ) (sp : Sprite) (d : SpriteRotationData)
    (hsp : st.sprites spriteId = some sp) (hd : st.spriteData spriteId = some d)
    (hnone : d.transformedImage = none) :
    getRotatedImage st t spriteId =
      some (transformPipeline t d.originalImage d.currentRotation d.isFlippedY) ∧
    (applyTransformation t sp d).2.transformedImage =
      some (transformPipeline t d.originalImage d.currentRotation d.isFlippedY) := by
  constructor
  · simp only [getRotatedImage, hsp, hd, hnone]
    rfl
  · rfl

/-- Witness for **C10** on the fixture world with state but no cache. -/
theorem getRotatedImage_matches_applyTransformation_witness :
    getRotatedImage stCached hostTrig 1 =
      some (transformPipeline hostTrig imgA 90 true) ∧
    (applyTransformation hostTrig spA ⟨imgA, 90, true, none⟩).2.transformedImage =
      some (transformPipeline hostTrig imgA 90 true) :=
  getRotatedImage_matches_applyTransformation hostTrig stCached 1 spA
    ⟨imgA, 90, true, none⟩ rfl rfl rfl
